import Mathlib

/-!
Verification of the NetBox MCP server (src/app.py): a shallow embedding of
the transport/session/dispatch layer, the tool registry, and a representative
set of tool handlers, together with theorems settling the specification
claims about them.

JSON values are modelled by the inductive `JVal`; Python dictionaries are
association lists, Python truthiness by `truthy`, and the NetBox backend by a
function argument `Backend`.  Fallible Python code (attribute errors, key
errors, `raise`) is modelled with `Except String`.
-/

/-- A JSON value, as produced by Flask's `request.get_json()` and by the
NetBox API.  Objects are association lists in insertion order, mirroring
Python dictionaries. -/
inductive JVal where
  | null
  | bool (b : Bool)
  | num (n : Int)
  | str (s : String)
  | arr (elems : List JVal)
  | obj (fields : List (String × JVal))

/-- Python `d.get(k)` on a dict: `some v` when the key is present, `none`
otherwise (and on non-dict values, which are never `.get`-ed at call sites of
this helper). -/
def jget : JVal → String → Option JVal
  | .obj fields, k => fields.lookup k
  | _, _ => none

/-- Python `k in d` membership test on a dict. -/
def jhas (v : JVal) (k : String) : Bool :=
  (jget v k).isSome

/-- Python truthiness of a JSON value: `None`, `False`, `0`, `""`, `[]` and
an empty dict are falsy, everything else truthy. -/
def truthy : JVal → Bool
  | .null => false
  | .bool b => b
  | .num n => n != 0
  | .str s => s != ""
  | .arr xs => !xs.isEmpty
  | .obj fs => !fs.isEmpty

/-- Truthiness of an optional value (`d.get(k)` result): absent means falsy. -/
def truthyOpt : Option JVal → Bool
  | none => false
  | some v => truthy v

/-- Python `str()` / f-string rendering of the values the handlers actually
interpolate (strings, numbers, booleans, `None`).  Containers are never
interpolated on the paths the claims exercise. -/
def pyStr : JVal → String
  | .null => "None"
  | .bool true => "True"
  | .bool false => "False"
  | .num n => toString n
  | .str s => s
  | .arr _ => "<list>"
  | .obj _ => "<dict>"

/-- Python `v.get(k, dflt)` where `v` may not be a dict: a non-dict receiver
raises `AttributeError`. -/
def pyGet (v : JVal) (k : String) (dflt : JVal) : Except String JVal :=
  match v with
  | .obj fields => .ok ((fields.lookup k).getD dflt)
  | _ => .error "AttributeError: get"

/-- Python `v[k]` subscription on a dict: raises `KeyError` when absent and
`TypeError` on a non-dict receiver. -/
def pyIndex (v : JVal) (k : String) : Except String JVal :=
  match v with
  | .obj fields =>
    match fields.lookup k with
    | some x => .ok x
    | none => .error ("KeyError: " ++ k)
  | _ => .error ("TypeError: not subscriptable: " ++ k)

/-- The list underlying a JSON array (the `results` payloads iterated by the
handlers are always arrays). -/
def jlist : JVal → List JVal
  | .arr xs => xs
  | _ => []

/-- Python `v == s` comparison of an optional JSON value against a string
literal, as in `data.get('method') == 'initialize'`. -/
def jstrEq (v : Option JVal) (s : String) : Bool :=
  match v with
  | some (.str t) => t == s
  | _ => false

/-- Python `v == s` comparison of a JSON value against a string literal. -/
def jvalEqStr (v : JVal) (s : String) : Bool :=
  match v with
  | .str t => t == s
  | _ => false

/-- Decidable substring test, used to state the empty-result sentinel
property ("the text contains the literal ..."). -/
def strContains (s pat : String) : Bool :=
  s.toList.tails.any (fun t => pat.toList.isPrefixOf t)

/-- An MCP text content item `{"type": "text", "text": s}` (src/app.py:85 and
every handler return). -/
def textItem (s : String) : JVal :=
  .obj [("type", .str "text"), ("text", .str s)]

/-- `check_empty_results` (src/app.py:71-86): returns the single
"No <resource> found matching the criteria" item when the payload's
`results` entry is missing or empty, `None` (here `none`) otherwise. -/
def check_empty_results (result : JVal) (resource_name : String) : Option (List JVal) :=
  let items := (jget result "results").getD (.arr [])
  if !truthy items then
    some [textItem ("No " ++ resource_name ++ " found matching the criteria")]
  else
    none

/-- The `name` field of each tool descriptor returned by `get_mcp_tools`
(src/app.py:88-1010), in source order.  The descriptors additionally carry a
description and a JSON input schema, which the dispatcher never reads; no
claim depends on them, so only the name projection is embedded. -/
def get_mcp_tools_names : List String := [
    "search_devices",
    "get_device_details",
    "get_device_interfaces",
    "get_sites",
    "get_site_details",
    "search_ip_addresses",
    "get_prefixes",
    "get_available_ips",
    "search_vlans",
    "search_circuits",
    "search_racks",
    "get_rack_details",
    "search_rack_reservations",
    "search_device_bays",
    "get_device_bay_details",
    "search_device_bay_templates",
    "get_rack_reservation_details",
    "search_rack_roles",
    "get_device_bay_template_details",
    "search_device_roles",
    "search_rack_types",
    "get_device_role_details",
    "search_device_types",
    "get_device_type_details",
    "search_vlan_translation_policies",
    "search_asns",
    "search_vlan_translation_rules",
    "get_asn_details",
    "search_asn_ranges",
    "get_asn_range_details",
    "search_aggregates",
    "search_fhrp_groups",
    "get_aggregate_details",
    "search_ip_ranges",
    "search_fhrp_group_assignments",
    "get_ip_range_details",
    "search_rirs",
    "search_route_targets",
    "get_rir_details",
    "search_ipam_roles",
    "search_services",
    "get_ipam_role_details",
    "search_vrfs",
    "search_service_templates",
    "get_vrf_details",
    "search_vlan_groups",
    "get_vlan_group_details",
    "search_site_groups",
    "get_site_group_details",
    "search_regions",
    "get_region_details",
    "search_tenants",
    "get_tenant_details",
    "search_tenant_groups",
    "get_tenant_group_details",
    "search_contacts",
    "get_contact_details",
    "search_contact_groups",
    "get_contact_group_details",
    "search_contact_roles",
    "get_contact_role_details",
    "search_virtual_machines",
    "get_virtual_machine_details",
    "search_clusters",
    "get_cluster_details",
    "search_manufacturers",
    "search_platforms",
    "search_cables",
    "get_cable_details",
    "search_providers",
    "search_circuit_types",
    "search_tags"
]

/-- The keys of the `tools` dispatch dictionary built inside `execute_tool`
(src/app.py:1409-1482), in source order.  Each key maps to the handler
function of the same name. -/
def execute_tool_keys : List String := [
    "search_devices",
    "get_device_details",
    "get_device_interfaces",
    "get_sites",
    "get_site_details",
    "search_ip_addresses",
    "get_prefixes",
    "get_available_ips",
    "search_vlans",
    "search_circuits",
    "search_racks",
    "get_rack_details",
    "search_rack_reservations",
    "get_rack_reservation_details",
    "search_rack_roles",
    "search_rack_types",
    "search_device_bays",
    "get_device_bay_details",
    "search_device_bay_templates",
    "get_device_bay_template_details",
    "search_device_roles",
    "get_device_role_details",
    "search_device_types",
    "get_device_type_details",
    "search_vlan_translation_policies",
    "search_vlan_translation_rules",
    "search_fhrp_groups",
    "search_fhrp_group_assignments",
    "search_route_targets",
    "search_services",
    "search_service_templates",
    "search_asns",
    "get_asn_details",
    "search_asn_ranges",
    "get_asn_range_details",
    "search_aggregates",
    "get_aggregate_details",
    "search_ip_ranges",
    "get_ip_range_details",
    "search_rirs",
    "get_rir_details",
    "search_ipam_roles",
    "get_ipam_role_details",
    "search_vrfs",
    "get_vrf_details",
    "search_vlan_groups",
    "get_vlan_group_details",
    "search_site_groups",
    "get_site_group_details",
    "search_regions",
    "get_region_details",
    "search_tenants",
    "get_tenant_details",
    "search_tenant_groups",
    "get_tenant_group_details",
    "search_contacts",
    "get_contact_details",
    "search_contact_groups",
    "get_contact_group_details",
    "search_contact_roles",
    "get_contact_role_details",
    "search_virtual_machines",
    "get_virtual_machine_details",
    "search_clusters",
    "get_cluster_details",
    "search_manufacturers",
    "search_platforms",
    "search_cables",
    "get_cable_details",
    "search_providers",
    "search_circuit_types",
    "search_tags"
]

/-- A recorded backend call: endpoint path and query parameters, in the order
the handler inserted them. -/
abbrev BCall := String × List (String × JVal)

/-- The NetBox backend (`NetBoxClient.get`, src/app.py:47-58): a GET either
returns a JSON payload or raises (non-2xx status, transport failure). -/
abbrev Backend := String → List (String × JVal) → Except String JVal

/-- A handler outcome: the content list (or the exception it raised) together
with the trace of backend calls it performed. -/
abbrev HResult := Except String (List JVal) × List BCall

/-- Query parameters built by `search_devices` (src/app.py:1491-1502): the
base limit (default 10) plus one backend key per caller-supplied filter. -/
def search_devices_params (args : JVal) : List (String × JVal) :=
  let ps := [("limit", (jget args "limit").getD (.num 10))]
  let ps := if jhas args "name" then ps ++ [("name__icontains", (jget args "name").getD .null)] else ps
  let ps := if jhas args "site" then ps ++ [("site", (jget args "site").getD .null)] else ps
  let ps := if jhas args "device_type" then ps ++ [("device_type", (jget args "device_type").getD .null)] else ps
  let ps := if jhas args "role" then ps ++ [("role", (jget args "role").getD .null)] else ps
  let ps := if jhas args "status" then ps ++ [("status", (jget args "status").getD .null)] else ps
  ps

/-- The per-device block of `search_devices` output (src/app.py:1515-1525). -/
def formatDevice (device : JVal) : Except String String := do
  let siteName ← pyGet ((jget device "site").getD (.obj [])) "name" (.str "Unknown")
  let deviceType ← pyGet ((jget device "device_type").getD (.obj [])) "model" (.str "Unknown")
  let role ← pyGet ((jget device "role").getD (.obj [])) "name" (.str "Unknown")
  let status ← pyGet ((jget device "status").getD (.obj [])) "label" (.str "Unknown")
  let nameV ← pyIndex device "name"
  let idV ← pyIndex device "id"
  pure ("• **" ++ pyStr nameV ++ "** (ID: " ++ pyStr idV ++ ")\n"
    ++ "  - Site: " ++ pyStr siteName ++ "\n"
    ++ "  - Type: " ++ pyStr deviceType ++ "\n"
    ++ "  - Role: " ++ pyStr role ++ "\n"
    ++ "  - Status: " ++ pyStr status ++ "\n\n")

/-- `search_devices` (src/app.py:1489-1527). -/
def search_devices (args : JVal) (nb : Backend) : HResult :=
  let params := search_devices_params args
  let res : Except String (List JVal) :=
    match nb "dcim/devices/" params with
    | .error e => .error e
    | .ok result =>
      match check_empty_results result "devices" with
      | some msg => .ok msg
      | none =>
        let devices := jlist ((jget result "results").getD (.arr []))
        let count := (jget result "count").getD (.num 0)
        match devices.foldlM (fun acc d => do pure (acc ++ (← formatDevice d)))
            ("Found " ++ pyStr count ++ " devices:\n\n") with
        | .error e => .error e
        | .ok out => .ok [textItem out]
  (res, [("dcim/devices/", params)])

/-- Query parameters built by `get_sites` (src/app.py:2137-2142). -/
def get_sites_params (args : JVal) : List (String × JVal) :=
  let ps := [("limit", (jget args "limit").getD (.num 10))]
  let ps := if jhas args "name" then ps ++ [("name__icontains", (jget args "name").getD .null)] else ps
  let ps := if jhas args "region" then ps ++ [("region", (jget args "region").getD .null)] else ps
  ps

/-- The per-site block of `get_sites` output (src/app.py:2155-2167). -/
def formatSite (site : JVal) : Except String String := do
  let regionName ←
    if truthyOpt (jget site "region") then
      pyGet ((jget site "region").getD (.obj [])) "name" (.str "No region")
    else
      pure (JVal.str "No region")
  let status ← pyGet ((jget site "status").getD (.obj [])) "label" (.str "Unknown")
  let nameV ← pyIndex site "name"
  let idV ← pyIndex site "id"
  let slugV ← pyIndex site "slug"
  let base := "• **" ++ pyStr nameV ++ "** (ID: " ++ pyStr idV ++ ")\n"
    ++ "  - Slug: " ++ pyStr slugV ++ "\n"
    ++ "  - Status: " ++ pyStr status ++ "\n"
    ++ "  - Region: " ++ pyStr regionName ++ "\n"
  let withDesc ←
    if truthyOpt (jget site "description") then do
      let descV ← pyIndex site "description"
      pure (base ++ "  - Description: " ++ pyStr descV ++ "\n")
    else
      pure base
  pure (withDesc ++ "\n")

/-- `get_sites` (src/app.py:2135-2169). -/
def get_sites (args : JVal) (nb : Backend) : HResult :=
  let params := get_sites_params args
  let res : Except String (List JVal) :=
    match nb "dcim/sites/" params with
    | .error e => .error e
    | .ok result =>
      match check_empty_results result "sites" with
      | some msg => .ok msg
      | none =>
        let sites := jlist ((jget result "results").getD (.arr []))
        let count := (jget result "count").getD (.num 0)
        match sites.foldlM (fun acc s => do pure (acc ++ (← formatSite s)))
            ("Found " ++ pyStr count ++ " sites:\n\n") with
        | .error e => .error e
        | .ok out => .ok [textItem out]
  (res, [("dcim/sites/", params)])

/-- Query parameters built by `get_prefixes` (src/app.py:1660-1675). -/
def get_prefixes_params (args : JVal) : List (String × JVal) :=
  let ps := [("limit", (jget args "limit").getD (.num 10))]
  let ps := if jhas args "prefix" then ps ++ [("prefix", (jget args "prefix").getD .null)] else ps
  let ps := if jhas args "within" then ps ++ [("within", (jget args "within").getD .null)] else ps
  let ps := if jhas args "family" then ps ++ [("family", (jget args "family").getD .null)] else ps
  let ps := if jhas args "status" then ps ++ [("status", (jget args "status").getD .null)] else ps
  let ps := if jhas args "site" then ps ++ [("site", (jget args "site").getD .null)] else ps
  let ps := if jhas args "vrf" then ps ++ [("vrf", (jget args "vrf").getD .null)] else ps
  let ps := if jhas args "role" then ps ++ [("role", (jget args "role").getD .null)] else ps
  ps

/-- The per-prefix block of `get_prefixes` output (src/app.py:1688-1703). -/
def formatPrefixRow (prefix_ : JVal) : Except String String := do
  let vrfName ←
    if truthyOpt (jget prefix_ "vrf") then
      pyGet ((jget prefix_ "vrf").getD (.obj [])) "name" (.str "Global")
    else
      pure (JVal.str "Global")
  let status ← pyGet ((jget prefix_ "status").getD (.obj [])) "label" (.str "Unknown")
  let role ←
    if truthyOpt (jget prefix_ "role") then
      pyGet ((jget prefix_ "role").getD (.obj [])) "name" (.str "No role")
    else
      pure (JVal.str "No role")
  let site ←
    if truthyOpt (jget prefix_ "site") then
      pyGet ((jget prefix_ "site").getD (.obj [])) "name" (.str "No site")
    else
      pure (JVal.str "No site")
  let prefixV ← pyIndex prefix_ "prefix"
  let base := "• **" ++ pyStr prefixV ++ "**\n"
    ++ "  - VRF: " ++ pyStr vrfName ++ "\n"
    ++ "  - Status: " ++ pyStr status ++ "\n"
    ++ "  - Role: " ++ pyStr role ++ "\n"
    ++ "  - Site: " ++ pyStr site ++ "\n"
  let withDesc ←
    if truthyOpt (jget prefix_ "description") then do
      let descV ← pyIndex prefix_ "description"
      pure (base ++ "  - Description: " ++ pyStr descV ++ "\n")
    else
      pure base
  pure (withDesc ++ "\n")

/-- `get_prefixes` (src/app.py:1658-1705). -/
def get_prefixes (args : JVal) (nb : Backend) : HResult :=
  let params := get_prefixes_params args
  let res : Except String (List JVal) :=
    match nb "ipam/prefixes/" params with
    | .error e => .error e
    | .ok result =>
      match check_empty_results result "prefixes" with
      | some msg => .ok msg
      | none =>
        let prefixes := jlist ((jget result "results").getD (.arr []))
        let count := (jget result "count").getD (.num 0)
        match prefixes.foldlM (fun acc p => do pure (acc ++ (← formatPrefixRow p)))
            ("Found " ++ pyStr count ++ " prefixes:\n\n") with
        | .error e => .error e
        | .ok out => .ok [textItem out]
  (res, [("ipam/prefixes/", params)])

/-- Query parameters built by `search_vlans` (src/app.py:1737-1748). -/
def search_vlans_params (args : JVal) : List (String × JVal) :=
  let ps := [("limit", (jget args "limit").getD (.num 10))]
  let ps := if jhas args "vid" then ps ++ [("vid", (jget args "vid").getD .null)] else ps
  let ps := if jhas args "name" then ps ++ [("name__icontains", (jget args "name").getD .null)] else ps
  let ps := if jhas args "site" then ps ++ [("site", (jget args "site").getD .null)] else ps
  let ps := if jhas args "group" then ps ++ [("group", (jget args "group").getD .null)] else ps
  let ps := if jhas args "status" then ps ++ [("status", (jget args "status").getD .null)] else ps
  ps

/-- The per-VLAN block of `search_vlans` output (src/app.py:1761-1774). -/
def formatVlan (vlan : JVal) : Except String String := do
  let status ← pyGet ((jget vlan "status").getD (.obj [])) "label" (.str "Unknown")
  let site ←
    if truthyOpt (jget vlan "site") then
      pyGet ((jget vlan "site").getD (.obj [])) "name" (.str "No site")
    else
      pure (JVal.str "No site")
  let group ←
    if truthyOpt (jget vlan "group") then
      pyGet ((jget vlan "group").getD (.obj [])) "name" (.str "No group")
    else
      pure (JVal.str "No group")
  let vidV ← pyIndex vlan "vid"
  let nameV ← pyIndex vlan "name"
  let base := "• **VLAN " ++ pyStr vidV ++ "** - " ++ pyStr nameV ++ "\n"
    ++ "  - Status: " ++ pyStr status ++ "\n"
    ++ "  - Site: " ++ pyStr site ++ "\n"
    ++ "  - Group: " ++ pyStr group ++ "\n"
  let withDesc ←
    if truthyOpt (jget vlan "description") then do
      let descV ← pyIndex vlan "description"
      pure (base ++ "  - Description: " ++ pyStr descV ++ "\n")
    else
      pure base
  pure (withDesc ++ "\n")

/-- `search_vlans` (src/app.py:1735-1776). -/
def search_vlans (args : JVal) (nb : Backend) : HResult :=
  let params := search_vlans_params args
  let res : Except String (List JVal) :=
    match nb "ipam/vlans/" params with
    | .error e => .error e
    | .ok result =>
      match check_empty_results result "VLANs" with
      | some msg => .ok msg
      | none =>
        let vlans := jlist ((jget result "results").getD (.arr []))
        let count := (jget result "count").getD (.num 0)
        match vlans.foldlM (fun acc v => do pure (acc ++ (← formatVlan v)))
            ("Found " ++ pyStr count ++ " VLANs:\n\n") with
        | .error e => .error e
        | .ok out => .ok [textItem out]
  (res, [("ipam/vlans/", params)])

/-- The detail block of `get_device_details` after the device id is known
(src/app.py:2104-2133): fetch `dcim/devices/{id}/` and format it. -/
def get_device_details_main (deviceIdV : JVal) (nb : Backend) :
    Except String (List JVal) × BCall :=
  let path := "dcim/devices/" ++ pyStr deviceIdV ++ "/"
  let res : Except String (List JVal) :=
    match nb path [] with
    | .error e => .error e
    | .ok device => do
      let siteName ← pyGet ((jget device "site").getD (.obj [])) "name" (.str "Unknown")
      let deviceType ← pyGet ((jget device "device_type").getD (.obj [])) "model" (.str "Unknown")
      let manufOwner ← pyGet ((jget device "device_type").getD (.obj [])) "manufacturer" (.obj [])
      let manufacturer ← pyGet manufOwner "name" (.str "Unknown")
      let role ← pyGet ((jget device "role").getD (.obj [])) "name" (.str "Unknown")
      let status ← pyGet ((jget device "status").getD (.obj [])) "label" (.str "Unknown")
      let serial := (jget device "serial").getD (.str "N/A")
      let nameV ← pyIndex device "name"
      let idV ← pyIndex device "id"
      let out := "# Device Details: " ++ pyStr nameV ++ "\n\n"
        ++ "**Basic Information:**\n"
        ++ "- ID: " ++ pyStr idV ++ "\n"
        ++ "- Name: " ++ pyStr nameV ++ "\n"
        ++ "- Status: " ++ pyStr status ++ "\n"
        ++ "- Site: " ++ pyStr siteName ++ "\n"
        ++ "- Role: " ++ pyStr role ++ "\n\n"
        ++ "**Hardware:**\n"
        ++ "- Manufacturer: " ++ pyStr manufacturer ++ "\n"
        ++ "- Model: " ++ pyStr deviceType ++ "\n"
        ++ "- Serial Number: " ++ pyStr serial ++ "\n\n"
      let out ←
        if truthyOpt (jget device "primary_ip4") then do
          let ip4 ← pyIndex device "primary_ip4"
          let addr ← pyIndex ip4 "address"
          pure (out ++ "**Network:**\n" ++ "- Primary IPv4: " ++ pyStr addr ++ "\n")
        else
          pure out
      let out ←
        if truthyOpt (jget device "primary_ip6") then do
          let ip6 ← pyIndex device "primary_ip6"
          let addr ← pyIndex ip6 "address"
          pure (out ++ "- Primary IPv6: " ++ pyStr addr ++ "\n")
        else
          pure out
      pure [textItem out]
  (res, (path, []))

/-- `get_device_details` (src/app.py:2089-2133): accepts `device_id` or
`device_name`; a name alone is resolved through one exact-name lookup whose
first match supplies the id, and zero matches short-circuit with a
user-facing "not found" content item. -/
def get_device_details (args : JVal) (nb : Backend) : HResult :=
  let deviceId0 := jget args "device_id"
  let deviceName := jget args "device_name"
  if !truthyOpt deviceId0 && !truthyOpt deviceName then
    (.ok [textItem "Either device_id or device_name must be provided"], [])
  else if truthyOpt deviceName && !truthyOpt deviceId0 then
    let nameV := deviceName.getD .null
    let call1 : BCall := ("dcim/devices/", [("name", nameV)])
    match nb "dcim/devices/" [("name", nameV)] with
    | .error e => (.error e, [call1])
    | .ok sr =>
      let devices := jlist ((jget sr "results").getD (.arr []))
      match devices with
      | [] => (.ok [textItem ("Device '" ++ pyStr nameV ++ "' not found")], [call1])
      | d :: _ =>
        match pyIndex d "id" with
        | .error e => (.error e, [call1])
        | .ok idV =>
          let (res, call2) := get_device_details_main idV nb
          (res, [call1, call2])
  else
    let (res, call2) := get_device_details_main (deviceId0.getD .null) nb
    (res, [call2])

/-- Query parameters built by `get_device_interfaces` once the device id is
known (src/app.py:1544-1548): the mandatory `device_id` plus the optional
`interface_type` (sent as `type`) and `enabled` filters. -/
def get_device_interfaces_params (args : JVal) (deviceIdV : JVal) : List (String × JVal) :=
  let ps := [("device_id", deviceIdV)]
  let ps := if jhas args "interface_type" then ps ++ [("type", (jget args "interface_type").getD .null)] else ps
  let ps := if jhas args "enabled" then ps ++ [("enabled", (jget args "enabled").getD .null)] else ps
  ps

/-- The per-interface block of `get_device_interfaces` output
(src/app.py:1557-1576). -/
def formatInterface (interface_ : JVal) : Except String String := do
  let enabled := (jget interface_ "enabled").getD (.bool false)
  let ifaceType ← pyGet ((jget interface_ "type").getD (.obj [])) "label" (.str "Unknown")
  let nameV ← pyIndex interface_ "name"
  let base := "• **" ++ pyStr nameV ++ "**\n"
    ++ "  - Type: " ++ pyStr ifaceType ++ "\n"
    ++ "  - Enabled: " ++ (if truthy enabled then "Yes" else "No") ++ "\n"
  let out ←
    if truthyOpt (jget interface_ "description") then do
      let descV ← pyIndex interface_ "description"
      pure (base ++ "  - Description: " ++ pyStr descV ++ "\n")
    else
      pure base
  let out ←
    if truthyOpt (jget interface_ "mtu") then do
      let mtuV ← pyIndex interface_ "mtu"
      pure (out ++ "  - MTU: " ++ pyStr mtuV ++ "\n")
    else
      pure out
  let out ←
    if truthyOpt (jget interface_ "cable") then do
      let cable ← pyIndex interface_ "cable"
      let cableId ← pyIndex cable "id"
      pure (out ++ "  - Cable: " ++ pyStr cableId ++ "\n")
    else
      pure out
  pure (out ++ "\n")

/-- The interface query and formatting of `get_device_interfaces` once the
device id is known (src/app.py:1544-1578). -/
def get_device_interfaces_main (args : JVal) (deviceIdV : JVal) (nb : Backend) :
    Except String (List JVal) × BCall :=
  let params := get_device_interfaces_params args deviceIdV
  let res : Except String (List JVal) :=
    match nb "dcim/interfaces/" params with
    | .error e => .error e
    | .ok result =>
      let interfacesV := (jget result "results").getD (.arr [])
      if !truthy interfacesV then
        .ok [textItem "No interfaces found for this device."]
      else
        match (jlist interfacesV).foldlM (fun acc i => do pure (acc ++ (← formatInterface i)))
            ("Interfaces for device ID " ++ pyStr deviceIdV ++ ":\n\n") with
        | .error e => .error e
        | .ok out => .ok [textItem out]
  (res, ("dcim/interfaces/", params))

/-- `get_device_interfaces` (src/app.py:1529-1578): accepts `device_id` or
`device_name` with the same name-resolution fallback as
`get_device_details`. -/
def get_device_interfaces (args : JVal) (nb : Backend) : HResult :=
  let deviceId0 := jget args "device_id"
  let deviceName := jget args "device_name"
  if !truthyOpt deviceId0 && !truthyOpt deviceName then
    (.ok [textItem "Either device_id or device_name must be provided"], [])
  else if truthyOpt deviceName && !truthyOpt deviceId0 then
    let nameV := deviceName.getD .null
    let call1 : BCall := ("dcim/devices/", [("name", nameV)])
    match nb "dcim/devices/" [("name", nameV)] with
    | .error e => (.error e, [call1])
    | .ok sr =>
      let devices := jlist ((jget sr "results").getD (.arr []))
      match devices with
      | [] => (.ok [textItem ("Device '" ++ pyStr nameV ++ "' not found")], [call1])
      | d :: _ =>
        match pyIndex d "id" with
        | .error e => (.error e, [call1])
        | .ok idV =>
          let (res, call2) := get_device_interfaces_main args idV nb
          (res, [call1, call2])
  else
    let (res, call2) := get_device_interfaces_main args (deviceId0.getD .null) nb
    (res, [call2])

/-- One prompt descriptor from `get_mcp_prompts` (src/app.py:1012-1070). -/
structure PromptDef where
  name : String
  description : String
  arguments : JVal

/-- `get_mcp_prompts` (src/app.py:1012-1070): the five static prompt
descriptors. -/
def get_mcp_prompts : List PromptDef := [
  { name := "device-overview",
    description := "Get an overview of devices in NetBox",
    arguments := .arr [.obj [("name", .str "site"),
      ("description", .str "Optional site name to filter devices"),
      ("required", .bool false)]] },
  { name := "site-summary",
    description := "Get a comprehensive summary of a specific site",
    arguments := .arr [.obj [("name", .str "site_name"),
      ("description", .str "Name of the site to summarize"),
      ("required", .bool true)]] },
  { name := "ip-management",
    description := "Explore IP address management and available subnets",
    arguments := .arr [.obj [("name", .str "prefix"),
      ("description", .str "Optional network prefix to focus on (e.g., '10.0.0.0/24')"),
      ("required", .bool false)]] },
  { name := "device-troubleshoot",
    description := "Troubleshoot connectivity and interface issues for a device",
    arguments := .arr [.obj [("name", .str "device_name"),
      ("description", .str "Name or partial name of the device to troubleshoot"),
      ("required", .bool true)]] },
  { name := "network-infrastructure",
    description := "Analyze network infrastructure including VLANs, circuits, and racks",
    arguments := .arr [.obj [("name", .str "focus_area"),
      ("description", .str "Area to focus on: 'vlans', 'circuits', 'racks', or 'all'"),
      ("required", .bool false)]] }]

/-- The JSON shape of one prompt descriptor. -/
def promptJson (p : PromptDef) : JVal :=
  .obj [("name", .str p.name), ("description", .str p.description),
        ("arguments", p.arguments)]

/-- The `prompts/list` payload: `get_mcp_prompts()` as JSON. -/
def get_mcp_prompts_json : JVal :=
  .arr (get_mcp_prompts.map promptJson)

/-- A prompt message `{"role": "user", "content": {"type": "text", "text": s}}`
(src/app.py:1321-1390). -/
def userMsg (s : String) : JVal :=
  .obj [("role", .str "user"), ("content", textItem s)]

/-- `generate_prompt_content` (src/app.py:1315-1390). -/
def generate_prompt_content (promptName : String) (arguments : JVal) : List JVal :=
  if promptName == "device-overview" then
    let siteFilter := (jget arguments "site").getD (.str "")
    let siteText := if truthy siteFilter then " at site '" ++ pyStr siteFilter ++ "'" else ""
    [userMsg ("Please provide an overview of all devices" ++ siteText
      ++ " in NetBox. Include device counts by type and role, and highlight any important status information.")]
  else if promptName == "site-summary" then
    let siteName := (jget arguments "site_name").getD (.str "")
    [userMsg ("Please provide a comprehensive summary of the '" ++ pyStr siteName
      ++ "' site in NetBox. Include details about devices, racks, IP allocations, and any other relevant infrastructure information.")]
  else if promptName == "ip-management" then
    let prefix_ := (jget arguments "prefix").getD (.str "")
    let prefixText := if truthy prefix_ then " for the " ++ pyStr prefix_ ++ " network" else ""
    [userMsg ("Help me explore IP address management in NetBox" ++ prefixText
      ++ ". Show me available prefixes, IP utilization, and suggest any optimization opportunities.")]
  else if promptName == "device-troubleshoot" then
    let deviceName := (jget arguments "device_name").getD (.str "")
    [userMsg ("Help me troubleshoot connectivity and interface issues for device '" ++ pyStr deviceName
      ++ "'. Check the device details, interface status, IP assignments, and identify any potential problems.")]
  else if promptName == "network-infrastructure" then
    let focusArea := (jget arguments "focus_area").getD (.str "all")
    let focusText := if !jvalEqStr focusArea "all" then "focusing on " ++ pyStr focusArea else "covering all areas"
    [userMsg ("Analyze the network infrastructure in NetBox, " ++ focusText
      ++ ". Provide insights about VLANs, circuits, racks, and their utilization patterns.")]
  else
    [userMsg ("Unknown prompt: " ++ promptName)]

/-- The membership test `tool_name not in tools` guarding the
`raise ValueError(f"Unknown tool: ...")` in `execute_tool`
(src/app.py:1484-1485): `true` exactly when the dispatch would raise. -/
def execute_tool_raises_unknown (toolName : Option JVal) : Bool :=
  match toolName with
  | some (.str n) => !execute_tool_keys.contains n
  | _ => true

/-- `execute_tool` (src/app.py:1407-1487), parameterized over the handler
bodies: a name outside the dispatch dictionary raises
`ValueError("Unknown tool: ...")`; a known name runs its handler (the 72
handlers are external collaborators here, abstracted by `runTool`). -/
def execute_tool (runTool : String → JVal → Except String (List JVal))
    (toolName : Option JVal) (args : JVal) : Except String (List JVal) :=
  match toolName with
  | some (.str n) =>
    if execute_tool_keys.contains n then runTool n args
    else .error ("Unknown tool: " ++ n)
  | other => .error ("Unknown tool: " ++ pyStr (other.getD .null))

/-- A JSON-RPC success envelope `{"jsonrpc": "2.0", "id": ..., "result": ...}`. -/
def resultEnvelope (msgId : JVal) (result : JVal) : JVal :=
  .obj [("jsonrpc", .str "2.0"), ("id", msgId), ("result", result)]

/-- A JSON-RPC error envelope `{"jsonrpc": "2.0", "id": ..., "error": {...}}`. -/
def errorEnvelope (msgId : JVal) (code : Int) (msg : String) : JVal :=
  .obj [("jsonrpc", .str "2.0"), ("id", msgId),
        ("error", .obj [("code", .num code), ("message", .str msg)])]

/-- An id-less JSON-RPC error body, as built directly by `mcp_endpoint`
(src/app.py:1130-1136 and 1155-1161). -/
def endpointErrorBody (code : Int) (msg : String) : JVal :=
  .obj [("jsonrpc", .str "2.0"),
        ("error", .obj [("code", .num code), ("message", .str msg)])]

/-- `handle_mcp_message` (src/app.py:1176-1313).  `tokenSet` models
`bool(NETBOX_TOKEN)`; `toolsJson` is the `get_mcp_tools()` payload (opaque to
the dispatcher, name projection in `get_mcp_tools_names`); `runTool`
abstracts the handler bodies as in `execute_tool`.  The surrounding
`try/except` turns any exception from the method body into a `-32603`
envelope carrying the request id. -/
def handle_mcp_message (tokenSet : Bool) (toolsJson : JVal)
    (runTool : String → JVal → Except String (List JVal)) (message : JVal) : JVal :=
  let method := jget message "method"
  let msgId := (jget message "id").getD .null
  let params := (jget message "params").getD (.obj [])
  let inner : Except String JVal :=
    if jstrEq method "initialize" then
      .ok (resultEnvelope msgId (.obj [
        ("protocolVersion", .str "2025-03-26"),
        ("capabilities", .obj [("tools", .obj []), ("prompts", .obj [])]),
        ("serverInfo", .obj [("name", .str "netbox-mcp-server"), ("version", .str "1.0.0")])]))
    else if jstrEq method "tools/list" then
      .ok (resultEnvelope msgId (.obj [("tools", toolsJson)]))
    else if jstrEq method "resources/list" then
      .ok (resultEnvelope msgId (.obj [("resources", .arr [])]))
    else if jstrEq method "tools/call" then
      let toolName := jget params "name"
      let arguments := (jget params "arguments").getD (.obj [])
      if !tokenSet then
        .ok (errorEnvelope msgId (-32000) "NetBox token not configured")
      else
        match execute_tool runTool toolName arguments with
        | .error e => .error e
        | .ok content =>
          .ok (resultEnvelope msgId (.obj [("content", .arr content)]))
    else if jstrEq method "prompts/list" then
      .ok (resultEnvelope msgId (.obj [("prompts", get_mcp_prompts_json)]))
    else if jstrEq method "prompts/get" then
      let promptName := jget params "name"
      if !truthyOpt promptName then
        .ok (errorEnvelope msgId (-32602) "Missing required parameter: name")
      else
        let nameV := promptName.getD .null
        match get_mcp_prompts.find? (fun p => jvalEqStr nameV p.name) with
        | none => .ok (errorEnvelope msgId (-32602) ("Prompt not found: " ++ pyStr nameV))
        | some p =>
          .ok (resultEnvelope msgId (.obj [
            ("description", .str p.description),
            ("messages", .arr (generate_prompt_content p.name
              ((jget params "arguments").getD (.obj []))))]))
    else
      .ok (errorEnvelope msgId (-32601) ("Method not found: " ++ pyStr ((jget message "method").getD .null)))
  match inner with
  | .ok v => v
  | .error e => errorEnvelope msgId (-32603) ("Internal error: " ++ e)

/-- One session record (src/app.py:1144-1147): creation timestamp and the
initialized flag. -/
structure SessionRec where
  created_at : Nat
  initialized : Bool
deriving DecidableEq, Repr

/-- The global `sessions` dictionary (src/app.py:33), as an association list
keyed by session id. -/
abbrev SessionTable := List (String × SessionRec)

/-- Python `sid in sessions`. -/
def sessionContains (t : SessionTable) (sid : String) : Bool :=
  (t.lookup sid).isSome

/-- Python `del sessions[sid]`: removes the (unique) entry with that key. -/
def sessionDelete (t : SessionTable) (sid : String) : SessionTable :=
  t.filter (fun p => p.1 != sid)

/-- Python `sessions[sid] = rec`: inserts or overwrites the entry. -/
def sessionSet (t : SessionTable) (sid : String) (rec : SessionRec) : SessionTable :=
  (sid, rec) :: sessionDelete t sid

/-- Python truthiness of an optional header string: missing headers and empty
strings are falsy. -/
def pyTruthyStrOpt : Option String → Bool
  | none => false
  | some s => s != ""

/-- The outcome of a `DELETE` to the transport endpoint: response body,
HTTP status, and the session table afterwards. -/
structure DeleteOutcome where
  body : String
  status : Nat
  sessionsAfter : SessionTable
deriving DecidableEq, Repr

/-- The `DELETE` branch of `mcp_endpoint` (src/app.py:1090-1095): drop the
session named by the `Mcp-Session-Id` header when present and live, and
always answer `204` with an empty body. -/
def mcp_endpoint_delete (sessions : SessionTable) (sessionId : Option String) : DeleteOutcome :=
  let sessionsAfter :=
    if pyTruthyStrOpt sessionId && sessionContains sessions (sessionId.getD "") then
      sessionDelete sessions (sessionId.getD "")
    else sessions
  ⟨"", 204, sessionsAfter⟩

/-- The outcome of a `POST` to the transport endpoint: JSON body, HTTP
status, the optional `Mcp-Session-Id` response header, and the session table
afterwards. -/
structure PostOutcome where
  body : JVal
  status : Nat
  sessionHeader : Option String
  sessionsAfter : SessionTable

/-- The `POST` branch of `mcp_endpoint` (src/app.py:1125-1161).
`getJsonResult` models `request.get_json()`: `.error` when it raises (as
Flask does on an undecodable body — the raise lands in the surrounding
`except Exception`), `.ok none`/falsy data for the explicit parse-error
branch.  `handled` abstracts `handle_mcp_message(data, session_id)`, which
never raises (it has its own catch-all); `freshId` is the `uuid4` value and
`now` the `datetime.utcnow()` timestamp used when a session is created. -/
def mcp_endpoint_post (sessions : SessionTable) (sessionId : Option String)
    (getJsonResult : Except String (Option JVal))
    (handled : JVal → Option String → JVal)
    (freshId : String) (now : Nat) : PostOutcome :=
  match getJsonResult with
  | .error _ => ⟨endpointErrorBody (-32603) "Internal error", 500, none, sessions⟩
  | .ok dataOpt =>
    let data := dataOpt.getD .null
    if !truthy data then
      ⟨endpointErrorBody (-32700) "Parse error", 400, none, sessions⟩
    else
      let response := handled data sessionId
      if !pyTruthyStrOpt sessionId && jstrEq (jget data "method") "initialize" then
        ⟨response, 200, some freshId, sessionSet sessions freshId ⟨now, true⟩⟩
      else
        ⟨response, 200, none, sessions⟩

theorem lookup_filter_ne (t : SessionTable) (s : String) :
    (t.filter (fun p => p.1 != s)).lookup s = none := by
  induction t with
  | nil => rfl
  | cons p ts ih =>
    obtain ⟨k, v⟩ := p
    by_cases h : k = s
    · simpa [List.filter, h] using ih
    · have hk : (k != s) = true := by simp [bne_iff_ne, h]
      have hs : (s == k) = false := by simp [Ne.symm h]
      simp only [List.filter, hk, List.lookup, hs]
      exact ih

/-- C1: the 72 tool names enumerated by `tools/list` (the name projection of
`get_mcp_tools`) coincide, without duplicates on either side, with the keys
of the dispatch dictionary in `execute_tool`, and for every enumerated name
the `Unknown tool` raise in `execute_tool` does not fire (the argument
mapping plays no role in that test). -/
theorem c1_registry_dispatch_consistency :
    get_mcp_tools_names.Nodup ∧ execute_tool_keys.Nodup ∧
    (∀ n : String, n ∈ get_mcp_tools_names ↔ n ∈ execute_tool_keys) ∧
    (∀ n ∈ get_mcp_tools_names, execute_tool_raises_unknown (some (.str n)) = false) := by
  refine ⟨by decide, by decide, ?_, by decide⟩
  have h1 : ∀ n ∈ get_mcp_tools_names, n ∈ execute_tool_keys := by decide
  have h2 : ∀ n ∈ execute_tool_keys, n ∈ get_mcp_tools_names := by decide
  exact fun n => ⟨h1 n, h2 n⟩

theorem c1_registry_dispatch_consistency_witness :
    ("search_devices" ∈ get_mcp_tools_names ↔ "search_devices" ∈ execute_tool_keys) ∧
    execute_tool_raises_unknown (some (.str "search_devices")) = false :=
  ⟨c1_registry_dispatch_consistency.2.2.1 "search_devices",
   c1_registry_dispatch_consistency.2.2.2 "search_devices" (by decide)⟩

/-- C2 counterexample: a `tools/call` whose `params.name` is not a registry
key is answered with a `-32603` internal-error envelope (the `ValueError`
from `execute_tool` is swallowed by the dispatcher's catch-all), not with the
`-32601` code the claim requires. -/
theorem c2_unknown_tool_counterexample :
    handle_mcp_message true .null (fun _ _ => .ok [])
      (.obj [("jsonrpc", .str "2.0"), ("id", .num 7), ("method", .str "tools/call"),
             ("params", .obj [("name", .str "no_such_tool")])])
      = errorEnvelope (.num 7) (-32603) "Internal error: Unknown tool: no_such_tool" ∧
    ((-32603 : Int) ≠ -32601) := by
  exact ⟨rfl, by decide⟩

/-- C2 (amended): an unknown (or absent) tool name in `tools/call` yields a
`-32603` internal-error envelope whose message names the unknown tool (the
absent case renders as "None", the f-string image of Python `None`); the
`-32000` application error is reserved for the missing-credential
precondition (it fires for every `tools/call` when the token is unset); and
`-32601` is produced exactly for unknown top-level methods. -/
theorem c2_error_code_taxonomy :
    (∀ (toolsJson msgId args : JVal) (n : String)
       (runTool : String → JVal → Except String (List JVal)),
      execute_tool_keys.contains n = false →
      handle_mcp_message true toolsJson runTool
        (.obj [("id", msgId), ("method", .str "tools/call"),
               ("params", .obj [("name", .str n), ("arguments", args)])])
        = errorEnvelope msgId (-32603) ("Internal error: Unknown tool: " ++ n)) ∧
    (∀ (toolsJson msgId args : JVal)
       (runTool : String → JVal → Except String (List JVal)),
      handle_mcp_message true toolsJson runTool
        (.obj [("id", msgId), ("method", .str "tools/call"),
               ("params", .obj [("arguments", args)])])
        = errorEnvelope msgId (-32603) "Internal error: Unknown tool: None") ∧
    (∀ (toolsJson msgId args nameV : JVal)
       (runTool : String → JVal → Except String (List JVal)),
      handle_mcp_message false toolsJson runTool
        (.obj [("id", msgId), ("method", .str "tools/call"),
               ("params", .obj [("name", nameV), ("arguments", args)])])
        = errorEnvelope msgId (-32000) "NetBox token not configured") ∧
    (∀ (toolsJson msgId : JVal) (m : String)
       (runTool : String → JVal → Except String (List JVal)),
      m ∉ (["initialize", "tools/list", "resources/list", "tools/call",
            "prompts/list", "prompts/get"] : List String) →
      handle_mcp_message true toolsJson runTool
        (.obj [("id", msgId), ("method", .str m)])
        = errorEnvelope msgId (-32601) ("Method not found: " ++ m)) := by
  refine ⟨?_, ?_, ?_, ?_⟩
  · intro toolsJson msgId args n runTool h
    have h' : n ∉ execute_tool_keys := by simpa using h
    simp only [handle_mcp_message, jget, List.lookup, jstrEq, execute_tool, h']
    simp [h']
    rw [← String.append_assoc]
    rfl
  · intro toolsJson msgId args runTool
    rfl
  · intro toolsJson msgId args nameV runTool
    simp [handle_mcp_message, jget, List.lookup, jstrEq]
  · intro toolsJson msgId m runTool hm
    simp only [List.mem_cons, List.mem_singleton, not_or] at hm
    obtain ⟨h1, h2, h3, h4, h5, h6, -⟩ := hm
    simp [handle_mcp_message, jget, List.lookup, jstrEq, pyStr, h1, h2, h3, h4, h5, h6]

theorem c2_error_code_taxonomy_witness :
    (handle_mcp_message true .null (fun _ _ => .ok [])
        (.obj [("id", .num 1), ("method", .str "tools/call"),
               ("params", .obj [("name", .str "bogus"), ("arguments", .obj [])])])
      = errorEnvelope (.num 1) (-32603) "Internal error: Unknown tool: bogus") ∧
    (handle_mcp_message true .null (fun _ _ => .ok [])
        (.obj [("id", .num 4), ("method", .str "tools/call"),
               ("params", .obj [("arguments", .obj [])])])
      = errorEnvelope (.num 4) (-32603) "Internal error: Unknown tool: None") ∧
    (handle_mcp_message false .null (fun _ _ => .ok [])
        (.obj [("id", .num 2), ("method", .str "tools/call"),
               ("params", .obj [("name", .str "search_devices"), ("arguments", .obj [])])])
      = errorEnvelope (.num 2) (-32000) "NetBox token not configured") ∧
    (handle_mcp_message true .null (fun _ _ => .ok [])
        (.obj [("id", .num 3), ("method", .str "nonexistent/method")])
      = errorEnvelope (.num 3) (-32601) "Method not found: nonexistent/method") :=
  ⟨c2_error_code_taxonomy.1 .null (.num 1) (.obj []) "bogus" (fun _ _ => .ok []) (by decide),
   c2_error_code_taxonomy.2.1 .null (.num 4) (.obj []) (fun _ _ => .ok []),
   c2_error_code_taxonomy.2.2.1 .null (.num 2) (.obj []) (.str "search_devices") (fun _ _ => .ok []),
   c2_error_code_taxonomy.2.2.2 .null (.num 3) "nonexistent/method" (fun _ _ => .ok []) (by decide)⟩

/-- C3: behavior of the POST branch at its two malformed-body outcomes.  When
`request.get_json()` raises — which Flask does for a body that is not
decodable JSON — the exception lands in the endpoint's catch-all and the
response is HTTP 500 with code `-32603`, contradicting the claimed
4xx/`-32700`; the explicit `-32700`/400 parse-error branch fires only when
`get_json` returns without data (e.g. a body decoding to JSON `null`). -/
theorem c3_post_malformed_body_behavior :
    (mcp_endpoint_post [] none (.error "Failed to decode JSON object")
        (fun _ _ => .null) "sid" 0).status = 500 ∧
    (mcp_endpoint_post [] none (.error "Failed to decode JSON object")
        (fun _ _ => .null) "sid" 0).body = endpointErrorBody (-32603) "Internal error" ∧
    (mcp_endpoint_post [] none (.ok none) (fun _ _ => .null) "sid" 0).status = 400 ∧
    (mcp_endpoint_post [] none (.ok none) (fun _ _ => .null) "sid" 0).body
      = endpointErrorBody (-32700) "Parse error" :=
  ⟨rfl, rfl, rfl, rfl⟩

/-- C4: any exception raised inside a tool handler during `tools/call` is
caught at the dispatcher boundary and converted to a `-32603` internal-error
envelope that carries the request's correlation id; `handle_mcp_message` is a
total function into response envelopes, so the exception never escapes as a
transport-level failure. -/
theorem c4_handler_exception_to_internal_error :
    ∀ (toolsJson msgId args : JVal) (n e : String)
      (runTool : String → JVal → Except String (List JVal)),
      execute_tool_keys.contains n = true →
      runTool n args = .error e →
      handle_mcp_message true toolsJson runTool
        (.obj [("id", msgId), ("method", .str "tools/call"),
               ("params", .obj [("name", .str n), ("arguments", args)])])
        = errorEnvelope msgId (-32603) ("Internal error: " ++ e) := by
  intro toolsJson msgId args n e runTool h1 h2
  have h1' : n ∈ execute_tool_keys := by simpa using h1
  simp [handle_mcp_message, jget, List.lookup, jstrEq, execute_tool, h1', h2]

theorem c4_handler_exception_to_internal_error_witness :
    handle_mcp_message true .null (fun _ _ => .error "NetBox API error: 500")
      (.obj [("id", .num 9), ("method", .str "tools/call"),
             ("params", .obj [("name", .str "search_devices"), ("arguments", .obj [])])])
      = errorEnvelope (.num 9) (-32603) "Internal error: NetBox API error: 500" :=
  c4_handler_exception_to_internal_error .null (.num 9) (.obj []) "search_devices"
    "NetBox API error: 500" (fun _ _ => .error "NetBox API error: 500") (by decide) rfl

/-- A backend whose every response is the empty paginated envelope
`{"count": 0, "results": []}`. -/
def emptyEnvBackend : Backend :=
  fun _ _ => .ok (.obj [("count", .num 0), ("results", .arr [])])

/-- C6 counterexample: `get_device_interfaces` consumes the paginated
envelope, yet on `{"count":0,"results":[]}` it returns the single item
"No interfaces found for this device.", whose text does not contain the
claimed literal "No interfaces found matching the criteria". -/
theorem c6_sentinel_counterexample :
    get_device_interfaces (.obj [("device_id", .num 5)]) emptyEnvBackend
      = (.ok [textItem "No interfaces found for this device."],
         [("dcim/interfaces/", [("device_id", .num 5)])]) ∧
    strContains "No interfaces found for this device."
      "No interfaces found matching the criteria" = false :=
  ⟨rfl, by decide⟩

/-- C6 (amended): every tool that routes its payload through the shared
helper `check_empty_results` turns the empty paginated envelope into exactly
one success-path content item whose text is the literal
"No <resource> found matching the criteria" for its per-tool resource name —
never an empty list and never an error; `get_device_interfaces`, which
bypasses the helper, words its single empty-result item differently. -/
theorem c6_empty_result_sentinel :
    (∀ r : String, check_empty_results (.obj [("count", .num 0), ("results", .arr [])]) r
      = some [textItem ("No " ++ r ++ " found matching the criteria")]) ∧
    (search_devices (.obj []) emptyEnvBackend).1
      = .ok [textItem "No devices found matching the criteria"] ∧
    (get_sites (.obj []) emptyEnvBackend).1
      = .ok [textItem "No sites found matching the criteria"] ∧
    (get_prefixes (.obj []) emptyEnvBackend).1
      = .ok [textItem "No prefixes found matching the criteria"] ∧
    (search_vlans (.obj []) emptyEnvBackend).1
      = .ok [textItem "No VLANs found matching the criteria"] ∧
    strContains "No devices found matching the criteria"
      "No devices found matching the criteria" = true :=
  ⟨fun _ => rfl, rfl, rfl, rfl, rfl, by decide⟩

/-- C7: for the embedded id-or-name tools (`get_device_details`,
`get_device_interfaces`), supplying only the name triggers exactly one
secondary lookup filtered by that exact name; zero matches short-circuit the
whole call with a success-path content item naming the attempted identifier
(no error, no further backend call), and otherwise the first match's `id`
drives the single follow-up query. -/
theorem c7_name_resolution_fallback :
    (∀ (name : String) (nb : Backend), name ≠ "" →
      nb "dcim/devices/" [("name", .str name)]
        = .ok (.obj [("count", .num 0), ("results", .arr [])]) →
      get_device_details (.obj [("device_name", .str name)]) nb
        = (.ok [textItem ("Device '" ++ name ++ "' not found")],
           [("dcim/devices/", [("name", .str name)])])) ∧
    (∀ (name : String) (nb : Backend) (countV : JVal) (i : Int)
       (fs : List (String × JVal)) (rest : List JVal), name ≠ "" →
      nb "dcim/devices/" [("name", .str name)]
        = .ok (.obj [("count", countV),
                     ("results", .arr (.obj (("id", .num i) :: fs) :: rest))]) →
      (get_device_details (.obj [("device_name", .str name)]) nb).2
        = [("dcim/devices/", [("name", .str name)]),
           ("dcim/devices/" ++ toString i ++ "/", [])]) ∧
    (∀ (name : String) (nb : Backend), name ≠ "" →
      nb "dcim/devices/" [("name", .str name)]
        = .ok (.obj [("count", .num 0), ("results", .arr [])]) →
      get_device_interfaces (.obj [("device_name", .str name)]) nb
        = (.ok [textItem ("Device '" ++ name ++ "' not found")],
           [("dcim/devices/", [("name", .str name)])])) ∧
    (∀ (name : String) (nb : Backend) (countV : JVal) (i : Int)
       (fs : List (String × JVal)) (rest : List JVal), name ≠ "" →
      nb "dcim/devices/" [("name", .str name)]
        = .ok (.obj [("count", countV),
                     ("results", .arr (.obj (("id", .num i) :: fs) :: rest))]) →
      (get_device_interfaces (.obj [("device_name", .str name)]) nb).2
        = [("dcim/devices/", [("name", .str name)]),
           ("dcim/interfaces/", [("device_id", .num i)])]) := by
  refine ⟨?_, ?_, ?_, ?_⟩
  · intro name nb hne h
    simp [get_device_details, jget, List.lookup, truthyOpt, truthy, bne_iff_ne, hne, h,
      jlist, pyStr]
  · intro name nb countV i fs rest hne h
    simp [get_device_details, get_device_details_main, jget, List.lookup, truthyOpt, truthy,
      bne_iff_ne, hne, h, jlist, pyIndex, pyStr]
  · intro name nb hne h
    simp [get_device_interfaces, jget, List.lookup, truthyOpt, truthy, bne_iff_ne, hne, h,
      jlist, pyStr]
  · intro name nb countV i fs rest hne h
    simp [get_device_interfaces, get_device_interfaces_main, get_device_interfaces_params,
      jget, List.lookup, truthyOpt, truthy, bne_iff_ne, hne, h, jlist, pyIndex, pyStr, jhas]

theorem c7_name_resolution_fallback_witness :
    get_device_details (.obj [("device_name", .str "core-sw1")]) emptyEnvBackend
      = (.ok [textItem "Device 'core-sw1' not found"],
         [("dcim/devices/", [("name", .str "core-sw1")])]) ∧
    (get_device_interfaces (.obj [("device_name", .str "core-sw1")])
        (fun path _ => if path == "dcim/devices/" then
            .ok (.obj [("count", .num 1),
                       ("results", .arr [.obj [("id", .num 42)]])])
          else .ok (.obj [("count", .num 0), ("results", .arr [])]))).2
      = [("dcim/devices/", [("name", .str "core-sw1")]),
         ("dcim/interfaces/", [("device_id", .num 42)])] :=
  ⟨c7_name_resolution_fallback.1 "core-sw1" emptyEnvBackend (by decide) rfl,
   c7_name_resolution_fallback.2.2.2 "core-sw1" _ (.num 1) 42 [] [] (by decide) rfl⟩

/-- C8: a `DELETE` to the transport endpoint always answers an empty body
with status 204 (the branch is a total function — nothing raises), deleting
twice leaves exactly the outcome and table of deleting once, and afterwards
the table holds no entry for the presented (nonempty) session id, whether it
was live, already terminated, or unknown. -/
theorem c8_idempotent_termination :
    ∀ (t : SessionTable) (hdr : Option String),
      (mcp_endpoint_delete t hdr).body = "" ∧
      (mcp_endpoint_delete t hdr).status = 204 ∧
      mcp_endpoint_delete (mcp_endpoint_delete t hdr).sessionsAfter hdr
        = ⟨"", 204, (mcp_endpoint_delete t hdr).sessionsAfter⟩ ∧
      (∀ sid : String, hdr = some sid → sid ≠ "" →
        sessionContains (mcp_endpoint_delete t hdr).sessionsAfter sid = false) := by
  intro t hdr
  refine ⟨rfl, rfl, ?_, ?_⟩
  · match hdr with
    | none => rfl
    | some s =>
      by_cases hs : s = ""
      · simp [mcp_endpoint_delete, pyTruthyStrOpt, hs]
      · by_cases hc : sessionContains t s
        · have hafter : sessionContains (sessionDelete t s) s = false := by
            simp [sessionContains, sessionDelete, lookup_filter_ne]
          simp [mcp_endpoint_delete, pyTruthyStrOpt, bne_iff_ne, hs, hc, sessionDelete,
            hafter]
        · simp [mcp_endpoint_delete, pyTruthyStrOpt, bne_iff_ne, hs, hc]
  · rintro sid rfl hs
    by_cases hc : sessionContains t sid
    · have hd : mcp_endpoint_delete t (some sid) = ⟨"", 204, sessionDelete t sid⟩ := by
        simp [mcp_endpoint_delete, pyTruthyStrOpt, bne_iff_ne, hs, hc]
      rw [hd]
      simp only [sessionContains, sessionDelete]
      rw [lookup_filter_ne]
      rfl
    · have hd : mcp_endpoint_delete t (some sid) = ⟨"", 204, t⟩ := by
        simp [mcp_endpoint_delete, pyTruthyStrOpt, bne_iff_ne, hs, hc]
      rw [hd]
      simpa using hc

theorem c8_idempotent_termination_witness :
    sessionContains (mcp_endpoint_delete [("abc", ⟨0, true⟩)] (some "abc")).sessionsAfter "abc"
      = false ∧
    (mcp_endpoint_delete [("abc", ⟨0, true⟩)] (some "abc")).status = 204 ∧
    mcp_endpoint_delete
        (mcp_endpoint_delete [("abc", ⟨0, true⟩)] (some "abc")).sessionsAfter (some "abc")
      = ⟨"", 204, (mcp_endpoint_delete [("abc", ⟨0, true⟩)] (some "abc")).sessionsAfter⟩ :=
  ⟨(c8_idempotent_termination [("abc", ⟨0, true⟩)] (some "abc")).2.2.2 "abc" rfl (by decide),
   (c8_idempotent_termination [("abc", ⟨0, true⟩)] (some "abc")).2.1,
   (c8_idempotent_termination [("abc", ⟨0, true⟩)] (some "abc")).2.2.1⟩

/-- C9: on a POST whose body parses to a truthy message, the dispatcher's
response body is always `handled data` (the method runs first); when the
method is `initialize` and the session header is absent (or empty, which the
code treats as absent), a fresh record with the creation timestamp and
`initialized = true` is stored under the fresh id, which is attached as the
response session header — and in every other combination the table is
untouched and no header is attached. -/
theorem c9_session_creation_on_init :
    ∀ (t : SessionTable) (hdr : Option String) (data : JVal)
      (handled : JVal → Option String → JVal) (freshId : String) (now : Nat),
      truthy data = true →
      (pyTruthyStrOpt hdr = false → jstrEq (jget data "method") "initialize" = true →
        mcp_endpoint_post t hdr (.ok (some data)) handled freshId now
          = ⟨handled data hdr, 200, some freshId, sessionSet t freshId ⟨now, true⟩⟩ ∧
        (sessionSet t freshId ⟨now, true⟩).lookup freshId = some ⟨now, true⟩) ∧
      (pyTruthyStrOpt hdr = true ∨ jstrEq (jget data "method") "initialize" = false →
        mcp_endpoint_post t hdr (.ok (some data)) handled freshId now
          = ⟨handled data hdr, 200, none, t⟩) := by
  intro t hdr data handled freshId now hd
  constructor
  · intro h1 h2
    constructor
    · simp [mcp_endpoint_post, hd, h1, h2]
    · simp [sessionSet, List.lookup]
  · intro h
    rcases h with h | h <;> simp [mcp_endpoint_post, hd, h]

theorem c9_session_creation_on_init_witness :
    mcp_endpoint_post [] none (.ok (some (.obj [("method", .str "initialize")])))
        (fun _ _ => .null) "fresh-id" 3
      = ⟨.null, 200, some "fresh-id", [("fresh-id", ⟨3, true⟩)]⟩ ∧
    mcp_endpoint_post [] none (.ok (some (.obj [("method", .str "tools/list")])))
        (fun _ _ => .null) "fresh-id" 3
      = ⟨.null, 200, none, []⟩ ∧
    mcp_endpoint_post [] (some "old") (.ok (some (.obj [("method", .str "initialize")])))
        (fun _ _ => .null) "fresh-id" 3
      = ⟨.null, 200, none, []⟩ :=
  ⟨((c9_session_creation_on_init [] none (.obj [("method", .str "initialize")])
      (fun _ _ => .null) "fresh-id" 3 rfl).1 rfl rfl).1,
   (c9_session_creation_on_init [] none (.obj [("method", .str "tools/list")])
      (fun _ _ => .null) "fresh-id" 3 rfl).2 (Or.inr rfl),
   (c9_session_creation_on_init [] (some "old") (.obj [("method", .str "initialize")])
      (fun _ _ => .null) "fresh-id" 3 rfl).2 (Or.inl rfl)⟩

/-- C10: `check_empty_results` treats a payload with no `results` key exactly
like one with an empty `results` list — the caller gets the single sentinel
item, not a failure and not an empty list — and `search_devices` fed such a
payload returns the sentinel on the success path. -/
theorem c10_missing_results_key :
    (∀ (payload : JVal) (r : String), jget payload "results" = none →
      check_empty_results payload r
        = some [textItem ("No " ++ r ++ " found matching the criteria")] ∧
      check_empty_results payload r
        = check_empty_results (.obj [("count", .num 0), ("results", .arr [])]) r) ∧
    (search_devices (.obj []) (fun _ _ => .ok (.obj [("count", .num 0)]))).1
      = .ok [textItem "No devices found matching the criteria"] := by
  refine ⟨?_, rfl⟩
  intro payload r h
  have h1 : check_empty_results payload r
      = some [textItem ("No " ++ r ++ " found matching the criteria")] := by
    simp [check_empty_results, h, truthy]
  exact ⟨h1, h1.trans rfl⟩

theorem c10_missing_results_key_witness :
    check_empty_results (.obj [("count", .num 0)]) "devices"
      = some [textItem "No devices found matching the criteria"] :=
  ((c10_missing_results_key.1 (.obj [("count", .num 0)]) "devices") rfl).1
